import Mathlib

/-!
Verification of the reporting query runner in `src/main.py`.

The script opens a SQLite connection to the fixed file `data.sqlite`, runs
ten analytical read-only SQL queries (steps 1..10) through `pd.read_sql`,
and closes the connection at the very end.  This file gives a shallow
embedding of the database schema, of each of the ten SQL statements, and of
the script's control flow (sequential execution, uncaught exceptions, the
final `conn.close()`), and proves or refutes the specification claims.

Modelling conventions:
* a table is a `List` of typed rows, in insertion order;
* `JOIN` is a nested-loop product (outer table first), matching SQLite's
  default join strategy for these unindexed queries;
* `ORDER BY` is a stable sort on the given key (SQLite's sorter is a
  stable merge sort for these in-memory workloads);
* `GROUP BY` and `DISTINCT` keep the first occurrence of each key;
* `CAST(x AS REAL)` is the numeric-prefix parse that SQLite applies to
  text (optional sign, digits, optional fraction), yielding `0` when no
  numeric prefix exists; values are `Rat` instead of floating point;
* machine errors: a step raises a query error exactly when a table it
  references is absent from the database file.
-/

namespace RelLab

/-! ### Data model: the external relational schema (spec §3) -/

structure Office where
  officeCode : String
  city : String
  state : String
  country : String
deriving DecidableEq

structure Employee where
  employeeNumber : Int
  firstName : String
  lastName : String
  officeCode : String
deriving DecidableEq

structure Customer where
  customerNumber : Int
  contactFirstName : String
  contactLastName : String
  phone : String
  salesRepEmployeeNumber : Option Int
  creditLimit : Int
deriving DecidableEq

structure Order where
  orderNumber : Int
  customerNumber : Int
deriving DecidableEq

structure OrderDetail where
  orderNumber : Int
  productCode : String
  quantityOrdered : Int
deriving DecidableEq

structure Product where
  productCode : String
  productName : String
deriving DecidableEq

structure Payment where
  customerNumber : Int
  checkNumber : String
  amount : String
  paymentDate : String
deriving DecidableEq

/-- The database contents: one list of rows per base table. -/
structure DB where
  offices : List Office
  employees : List Employee
  customers : List Customer
  orders : List Order
  orderdetails : List OrderDetail
  products : List Product
  payments : List Payment
deriving DecidableEq

/-! ### Relational building blocks -/

/-- `FROM ls JOIN rs ON p`: nested-loop inner join, outer table first. -/
def innerJoin (ls : List α) (rs : List β) (p : α → β → Bool) : List (α × β) :=
  ls.flatMap fun a => (rs.filter fun b => p a b).map fun b => (a, b)

/-- `FROM ls LEFT JOIN rs ON p`: left rows without a match are padded
with `none` (the SQL NULL row). -/
def leftJoin (ls : List α) (rs : List β) (p : α → β → Bool) : List (α × Option β) :=
  ls.flatMap fun a =>
    match rs.filter (fun b => p a b) with
    | [] => [(a, none)]
    | ms => ms.map fun b => (a, some b)

/-- First-occurrence deduplication: the distinct keys of a rowset, in
order of first appearance (used for `GROUP BY` keys and `DISTINCT`). -/
def dedupFirst [DecidableEq α] : List α → List α
  | [] => []
  | a :: l => a :: (dedupFirst l).filter fun b => decide (b ≠ a)

/-- Comparison relation of `ORDER BY` on a sort key; descending orders
use a key into the order dual. -/
def byKey (k : α → κ) [LinearOrder κ] : α → α → Prop :=
  fun a b => k a ≤ k b

instance byKeyDecidable (k : α → κ) [LinearOrder κ] : DecidableRel (byKey k) :=
  fun a b => inferInstanceAs (Decidable (k a ≤ k b))

instance byKeyTotal (k : α → κ) [LinearOrder κ] : IsTotal α (byKey k) :=
  ⟨fun a b => le_total (k a) (k b)⟩

instance byKeyTrans (k : α → κ) [LinearOrder κ] : IsTrans α (byKey k) :=
  ⟨fun _ _ _ h1 h2 => le_trans h1 h2⟩

/-- Digit string to number, most significant first. -/
def digitsToNat (ds : List Char) : Nat :=
  ds.foldl (fun n c => 10 * n + (c.toNat - 48)) 0

/-- `CAST(s AS REAL)`: SQLite parses the longest numeric prefix of the
text (optional sign, integer digits, optional `.` fraction) and yields
`0` when there is none.  Modelled over `Rat`; the exponent form, absent
from the fixture's amounts, is not modelled. -/
def castReal (s : String) : Rat :=
  let cs := s.data.dropWhile fun c => c == ' '
  let signAndDigits : Int × List Char :=
    match cs with
    | '-' :: rest => (-1, rest)
    | '+' :: rest => (1, rest)
    | _ => (1, cs)
  let ds := signAndDigits.2.takeWhile Char.isDigit
  let rest := signAndDigits.2.dropWhile Char.isDigit
  let fs := match rest with
    | '.' :: r => r.takeWhile Char.isDigit
    | _ => []
  mkRat (signAndDigits.1 * ((digitsToNat ds) * 10 ^ fs.length + digitsToNat fs))
    (10 ^ fs.length)

/-! ### The ten query steps (src/main.py, steps 1..10) -/

/-- Output row of step 1. -/
structure NameRow where
  firstName : String
  lastName : String
deriving DecidableEq

/-- Step 1: employees in the Boston office
(`employees JOIN offices ON officeCode WHERE o.city = 'Boston'`). -/
def df_boston (db : DB) : List NameRow :=
  ((innerJoin db.employees db.offices fun e o => e.officeCode == o.officeCode).filter
      fun r => r.2.city == "Boston").map
    fun r => ⟨r.1.firstName, r.1.lastName⟩

/-- Output row of step 2. -/
structure OfficeRow where
  officeCode : String
  city : String
  state : String
  country : String
deriving DecidableEq

/-- Step 2: offices with zero employees (`offices LEFT JOIN employees ON
officeCode WHERE e.employeeNumber IS NULL`); `employeeNumber` is the
employee key, so the padded NULL row marks exactly the matchless offices. -/
def df_zero_emp (db : DB) : List OfficeRow :=
  ((leftJoin db.offices db.employees fun o e => o.officeCode == e.officeCode).filter
      fun r => r.2.isNone).map
    fun r => ⟨r.1.officeCode, r.1.city, r.1.state, r.1.country⟩

/-- Output row of step 3; `city`/`state` are NULL for an employee whose
`officeCode` matches no office. -/
structure EmployeeOfficeRow where
  firstName : String
  lastName : String
  city : Option String
  state : Option String
deriving DecidableEq

/-- Step 3: all employees with their office's city/state
(`employees LEFT JOIN offices ORDER BY firstName, lastName`). -/
def df_employee (db : DB) : List EmployeeOfficeRow :=
  List.insertionSort (byKey fun r : EmployeeOfficeRow => toLex (r.firstName, r.lastName))
    ((leftJoin db.employees db.offices fun e o => e.officeCode == o.officeCode).map
      fun r => ⟨r.1.firstName, r.1.lastName, r.2.map Office.city, r.2.map Office.state⟩)

/-- Output row of step 4. -/
structure ContactRow where
  contactFirstName : String
  contactLastName : String
  phone : String
  salesRepEmployeeNumber : Option Int
deriving DecidableEq

/-- Step 4: customers without orders (`customers LEFT JOIN orders WHERE
o.orderNumber IS NULL ORDER BY contactLastName`). -/
def df_contacts (db : DB) : List ContactRow :=
  List.insertionSort (byKey fun r : ContactRow => r.contactLastName)
    (((leftJoin db.customers db.orders fun c o => c.customerNumber == o.customerNumber).filter
        fun r => r.2.isNone).map
      fun r => ⟨r.1.contactFirstName, r.1.contactLastName, r.1.phone,
        r.1.salesRepEmployeeNumber⟩)

/-- Output row of step 5; `amount` is selected as the raw stored text. -/
structure PaymentRow where
  contactFirstName : String
  contactLastName : String
  amount : String
  paymentDate : String
deriving DecidableEq

/-- Join rows of step 5 before the `ORDER BY`
(`customers INNER JOIN payments ON customerNumber`). -/
def paymentRows (db : DB) : List PaymentRow :=
  (innerJoin db.customers db.payments fun c p => c.customerNumber == p.customerNumber).map
    fun r => ⟨r.1.contactFirstName, r.1.contactLastName, r.2.amount, r.2.paymentDate⟩

/-- Step 5: the payment report, `ORDER BY CAST(p.amount AS REAL) DESC`. -/
def df_payment (db : DB) : List PaymentRow :=
  List.insertionSort (byKey fun r : PaymentRow => OrderDual.toDual (castReal r.amount))
    (paymentRows db)

/-- Output row of step 6. -/
structure CreditRow where
  employeeNumber : Int
  firstName : String
  lastName : String
  num_customers : Nat
deriving DecidableEq

/-- Join rows of step 6 (`employees JOIN customers ON
e.employeeNumber = c.salesRepEmployeeNumber`). -/
def empCustRows (db : DB) : List (Employee × Customer) :=
  innerJoin db.employees db.customers fun e c =>
    c.salesRepEmployeeNumber == some e.employeeNumber

/-- The `GROUP BY` key of step 6. -/
def creditKey (r : Employee × Customer) : Int × String × String :=
  (r.1.employeeNumber, r.1.firstName, r.1.lastName)

/-- The join rows of one step-6 group. -/
def creditGroupRows (db : DB) (k : Int × String × String) : List (Employee × Customer) :=
  (empCustRows db).filter fun r => creditKey r == k

/-- The aggregate row of one step-6 group
(`COUNT(c.customerNumber) AS num_customers`). -/
def creditAgg (db : DB) (k : Int × String × String) : CreditRow :=
  ⟨k.1, k.2.1, k.2.2, (creditGroupRows db k).length⟩

/-- `HAVING AVG(c.creditLimit) > 90000`; each group is nonempty, so the
average comparison is the integer cross-multiplication. -/
def avgCreditOver90000 (db : DB) (k : Int × String × String) : Bool :=
  decide (90000 * ((creditGroupRows db k).length : Int) <
    ((creditGroupRows db k).map fun r => r.2.creditLimit).sum)

/-- The step-6 aggregate rows surviving the `HAVING` clause. -/
def creditQualRows (db : DB) : List CreditRow :=
  (((dedupFirst ((empCustRows db).map creditKey)).filter (avgCreditOver90000 db)).map
    (creditAgg db))

/-- Step 6: `ORDER BY num_customers DESC LIMIT 4`. -/
def df_credit (db : DB) : List CreditRow :=
  (List.insertionSort (byKey fun r : CreditRow => OrderDual.toDual r.num_customers)
    (creditQualRows db)).take 4

/-- Output row of step 7. -/
structure ProductSoldRow where
  productName : String
  numorders : Nat
  totalunits : Int
deriving DecidableEq

/-- Join rows of step 7 (`products JOIN orderdetails ON productCode`). -/
def prodDetailRows (db : DB) : List (Product × OrderDetail) :=
  innerJoin db.products db.orderdetails fun p od => p.productCode == od.productCode

/-- The aggregate row of one step-7 group: the query groups by
`p.productName` alone. -/
def prodSoldAgg (db : DB) (n : String) : ProductSoldRow :=
  let rows := (prodDetailRows db).filter fun r => r.1.productName == n
  ⟨n, rows.length, (rows.map fun r => r.2.quantityOrdered).sum⟩

/-- Step 7: `GROUP BY p.productName ORDER BY totalunits DESC`. -/
def df_product_sold (db : DB) : List ProductSoldRow :=
  List.insertionSort (byKey fun r : ProductSoldRow => OrderDual.toDual r.totalunits)
    ((dedupFirst ((prodDetailRows db).map fun r => r.1.productName)).map (prodSoldAgg db))

/-- Output row of step 8. -/
structure TotalCustomersRow where
  productName : String
  productCode : String
  numpurchasers : Nat
deriving DecidableEq

/-- Join rows of step 8 (`products JOIN orderdetails JOIN orders`). -/
def prodDetailOrderRows (db : DB) : List ((Product × OrderDetail) × Order) :=
  innerJoin (innerJoin db.products db.orderdetails fun p od => p.productCode == od.productCode)
    db.orders fun r o => r.2.orderNumber == o.orderNumber

/-- Step 8: market reach per product,
`COUNT(DISTINCT o.customerNumber) AS numpurchasers`. -/
def df_total_customers (db : DB) : List TotalCustomersRow :=
  List.insertionSort (byKey fun r : TotalCustomersRow => OrderDual.toDual r.numpurchasers)
    ((dedupFirst ((prodDetailOrderRows db).map fun r =>
        (r.1.1.productName, r.1.1.productCode))).map
      fun k => ⟨k.1, k.2,
        (dedupFirst (((prodDetailOrderRows db).filter fun r =>
            (r.1.1.productName, r.1.1.productCode) == k).map
          fun r => r.2.customerNumber)).length⟩)

/-- Output row of step 9. -/
structure OfficeCustomersRow where
  officeCode : String
  city : String
  n_customers : Nat
deriving DecidableEq

/-- Join rows of step 9 (`offices JOIN employees JOIN customers`). -/
def officeEmpCustRows (db : DB) : List ((Office × Employee) × Customer) :=
  innerJoin (innerJoin db.offices db.employees fun o e => o.officeCode == e.officeCode)
    db.customers fun r c => c.salesRepEmployeeNumber == some r.2.employeeNumber

/-- Step 9: customer count per office; no `ORDER BY`, so groups stay in
first-appearance order (engine-defined in the contract). -/
def df_customers (db : DB) : List OfficeCustomersRow :=
  (dedupFirst ((officeEmpCustRows db).map fun r => (r.1.1.officeCode, r.1.1.city))).map
    fun k => ⟨k.1, k.2,
      ((officeEmpCustRows db).filter fun r => (r.1.1.officeCode, r.1.1.city) == k).length⟩

/-- Join rows of the step-10 CTE (`orderdetails JOIN orders ON orderNumber`). -/
def detailOrderRows (db : DB) : List (OrderDetail × Order) :=
  innerJoin db.orderdetails db.orders fun od o => od.orderNumber == o.orderNumber

/-- Distinct customers who placed an order containing the product. -/
def distinctCustomerCount (db : DB) (pc : String) : Nat :=
  (dedupFirst (((detailOrderRows db).filter fun r => r.1.productCode == pc).map
    fun r => r.2.customerNumber)).length

/-- The `low_demand_products` CTE of step 10:
`HAVING COUNT(DISTINCT o.customerNumber) < 20`. -/
def low_demand_products (db : DB) : List String :=
  (dedupFirst ((detailOrderRows db).map fun r => r.1.productCode)).filter
    fun pc => decide (distinctCustomerCount db pc < 20)

/-- Output row of step 10. -/
structure UnderTwentyRow where
  employeeNumber : Int
  firstName : String
  lastName : String
  city : String
  officeCode : String
deriving DecidableEq

/-- Join rows of step 10's main query
(`employees JOIN offices JOIN customers JOIN orders JOIN orderdetails`). -/
def empSaleRows (db : DB) : List ((((Employee × Office) × Customer) × Order) × OrderDetail) :=
  innerJoin
    (innerJoin
      (innerJoin
        (innerJoin db.employees db.offices fun e o => e.officeCode == o.officeCode)
        db.customers fun r c => c.salesRepEmployeeNumber == some r.1.employeeNumber)
      db.orders fun r o => r.2.customerNumber == o.customerNumber)
    db.orderdetails fun r od => r.2.orderNumber == od.orderNumber

/-- Step 10: distinct employees who sold a low-demand product,
`ORDER BY lastName, firstName`. -/
def df_under_20 (db : DB) : List UnderTwentyRow :=
  List.insertionSort (byKey fun r : UnderTwentyRow => toLex (r.lastName, r.firstName))
    (dedupFirst (((empSaleRows db).filter fun r =>
        (low_demand_products db).contains r.2.productCode).map
      fun r => ⟨r.1.1.1.1.employeeNumber, r.1.1.1.1.firstName, r.1.1.1.1.lastName,
        r.1.1.1.2.city, r.1.1.1.2.officeCode⟩))

/-! ### Script control flow (src/main.py as a whole)

The script is linear Python: `sqlite3.connect('data.sqlite')`, the step-0
metadata reads (on `sqlite_master`, which every SQLite database has, so
they cannot fail), the ten `pd.read_sql` steps in order, then
`conn.close()`.  There is no `try`/`except`/`finally` and no `with`
block, so an exception raised by any step terminates the process at that
point.  A step raises `pandas.errors.DatabaseError` exactly when a table
it references is absent from the connected database. -/

/-- Which base tables the connected database file actually contains. -/
structure TablesPresent where
  offices : Bool
  employees : Bool
  customers : Bool
  orders : Bool
  orderdetails : Bool
  products : Bool
  payments : Bool
deriving DecidableEq

/-- The file system entry at the path given to `sqlite3.connect`. -/
inductive FileState
  | missing
  | unreadable
  | present (tables : TablesPresent)
deriving DecidableEq

/-- A freshly created SQLite database contains no user tables. -/
def emptyTables : TablesPresent :=
  ⟨false, false, false, false, false, false, false⟩

/-- Result of `sqlite3.connect`. -/
inductive ConnectResult
  | opened (tables : TablesPresent) (created : Bool)
  | operationalError
deriving DecidableEq

/-- `sqlite3.connect(path)`: with the default flags SQLite *creates* a new
empty database when the file is missing; only an unreadable/uncreatable
path raises (and it raises `sqlite3.OperationalError`). -/
def connect : FileState → ConnectResult
  | .missing => .opened emptyTables true
  | .unreadable => .operationalError
  | .present t => .opened t false

/-- Identifiers for the ten query steps. -/
inductive StepId
  | s1 | s2 | s3 | s4 | s5 | s6 | s7 | s8 | s9 | s10
deriving DecidableEq

/-- The steps in the order the script runs them. -/
def allSteps : List StepId :=
  [.s1, .s2, .s3, .s4, .s5, .s6, .s7, .s8, .s9, .s10]

/-- A step succeeds exactly when every table named in its `FROM`/`JOIN`
clauses is present (columns are fixed by the typed schema). -/
def stepOk (t : TablesPresent) : StepId → Bool
  | .s1 => t.employees && t.offices
  | .s2 => t.offices && t.employees
  | .s3 => t.employees && t.offices
  | .s4 => t.customers && t.orders
  | .s5 => t.customers && t.payments
  | .s6 => t.employees && t.customers
  | .s7 => t.products && t.orderdetails
  | .s8 => t.products && t.orderdetails && t.orders
  | .s9 => t.offices && t.employees && t.customers
  | .s10 => t.orderdetails && t.orders && t.employees && t.offices && t.customers

/-- What a run of the script did. -/
structure Outcome where
  connOpened : Bool
  completedSteps : List StepId
  failedStep : Option StepId
  connClosed : Bool
deriving DecidableEq

/-- Sequential execution with Python's uncaught-exception semantics: the
first failing step aborts, later statements never run. -/
def runSteps (t : TablesPresent) : List StepId → List StepId × Option StepId
  | [] => ([], none)
  | s :: rest =>
    if stepOk t s then
      let r := runSteps t rest
      (s :: r.1, r.2)
    else ([], some s)

/-- The whole script: connect, run steps 1..10 in order, and reach the
final `conn.close()` only if no step raised. -/
def script (f : FileState) : Outcome :=
  match connect f with
  | .operationalError => ⟨false, [], none, false⟩
  | .opened t _ =>
    let r := runSteps t allSteps
    ⟨true, r.1, r.2, r.2.isNone⟩

/-- The database file name is the string literal in the source. -/
def dbPath : String := "data.sqlite"

/-- The process entry point: the script never reads its command line or
environment, and consults the file system only at `dbPath`. -/
def main_run (_args : List String) (_env : String → Option String)
    (fs : String → FileState) : Outcome :=
  script (fs dbPath)

/-! ### Uniform result encoding, for the order-independence claim -/

/-- An SQL value as materialized by the result tables. -/
inductive Val
  | s (v : String)
  | i (v : Int)
  | n (v : Nat)
  | null
deriving DecidableEq

/-- NULL-able string column. -/
def Val.ofOptS : Option String → Val
  | none => .null
  | some v => .s v

/-- NULL-able integer column. -/
def Val.ofOptI : Option Int → Val
  | none => .null
  | some v => .i v

/-- Executing one step against the database state: each statement is a
pure `SELECT`, producing its result table and leaving the database as it
was. -/
def execStep : StepId → DB → List (List Val) × DB
  | .s1, db => ((df_boston db).map fun r => [.s r.firstName, .s r.lastName], db)
  | .s2, db => ((df_zero_emp db).map fun r =>
      [.s r.officeCode, .s r.city, .s r.state, .s r.country], db)
  | .s3, db => ((df_employee db).map fun r =>
      [.s r.firstName, .s r.lastName, .ofOptS r.city, .ofOptS r.state], db)
  | .s4, db => ((df_contacts db).map fun r =>
      [.s r.contactFirstName, .s r.contactLastName, .s r.phone,
        .ofOptI r.salesRepEmployeeNumber], db)
  | .s5, db => ((df_payment db).map fun r =>
      [.s r.contactFirstName, .s r.contactLastName, .s r.amount, .s r.paymentDate], db)
  | .s6, db => ((df_credit db).map fun r =>
      [.i r.employeeNumber, .s r.firstName, .s r.lastName, .n r.num_customers], db)
  | .s7, db => ((df_product_sold db).map fun r =>
      [.s r.productName, .n r.numorders, .i r.totalunits], db)
  | .s8, db => ((df_total_customers db).map fun r =>
      [.s r.productName, .s r.productCode, .n r.numpurchasers], db)
  | .s9, db => ((df_customers db).map fun r =>
      [.s r.officeCode, .s r.city, .n r.n_customers], db)
  | .s10, db => ((df_under_20 db).map fun r =>
      [.i r.employeeNumber, .s r.firstName, .s r.lastName, .s r.city, .s r.officeCode], db)

/-- Running a list of steps in the given order, threading the database
state and recording each step's result table. -/
def runSeq : List StepId → DB → List (StepId × List (List Val)) × DB
  | [], db => ([], db)
  | s :: rest, db =>
    let r := execStep s db
    let rr := runSeq rest r.2
    ((s, r.1) :: rr.1, rr.2)

/-! ### Claim-level predicates and concrete fixtures -/

/-- Step 7 "aggregates per product": the output holds, for the given
referenced product, a row carrying that product's own detail-row count
and unit sum (spec §4.2, step 7 row of the table). -/
def step7RowFor (db : DB) (p : Product) : Prop :=
  ∃ r ∈ df_product_sold db, r.productName = p.productName ∧
    r.numorders = (db.orderdetails.filter fun od => p.productCode == od.productCode).length ∧
    r.totalunits = ((db.orderdetails.filter fun od => p.productCode == od.productCode).map
      fun od => od.quantityOrdered).sum

/-- Step 7's per-product aggregation property over every product that
appears in at least one order detail. -/
def step7PerProduct (db : DB) : Prop :=
  ∀ p ∈ db.products, (∃ od ∈ db.orderdetails, od.productCode = p.productCode) →
    step7RowFor db p

/-- A database whose file holds every table except `payments`:
step 5 is then the first failing step. -/
def tablesNoPayments : TablesPresent :=
  ⟨true, true, true, true, true, true, false⟩

/-- Fixture for the step-10 witness: one order detail, one order. -/
def dbC5 : DB :=
  ⟨[], [], [], [⟨1, 100⟩], [⟨1, "P1", 2⟩], [], []⟩

/-- Fixture for the step-2 witness: office 1 has no employees, office 2
has one. -/
def dbC7 : DB :=
  ⟨[⟨"1", "Boston", "MA", "USA"⟩, ⟨"2", "NYC", "NY", "USA"⟩],
    [⟨1, "A", "B", "2"⟩], [], [], [], [], []⟩

/-- Fixture for the step-6 witness: six employees, of whom exactly the
first three have customers averaging a credit limit above 90000. -/
def dbC4 : DB :=
  ⟨[],
    [⟨1, "F1", "L1", "1"⟩, ⟨2, "F2", "L2", "1"⟩, ⟨3, "F3", "L3", "1"⟩,
      ⟨4, "F4", "L4", "1"⟩, ⟨5, "F5", "L5", "1"⟩, ⟨6, "F6", "L6", "1"⟩],
    [⟨10, "a", "a", "p", some 1, 100000⟩, ⟨11, "b", "b", "p", some 2, 95000⟩,
      ⟨12, "c", "c", "p", some 3, 91000⟩, ⟨13, "d", "d", "p", some 4, 50000⟩],
    [], [], [], []⟩

/-- Fixture refuting step 7's per-product reading: two distinct products
share the name "X", each referenced by one order detail. -/
def dbC8 : DB :=
  ⟨[], [], [], [], [⟨1, "P1", 5⟩, ⟨1, "P2", 7⟩],
    [⟨"P1", "X"⟩, ⟨"P2", "X"⟩], []⟩

/-- Fixture for the amended step-7 claim: distinct product names. -/
def dbC8W : DB :=
  ⟨[], [], [], [], [⟨1, "P1", 5⟩, ⟨1, "P2", 7⟩, ⟨2, "P1", 3⟩],
    [⟨"P1", "X"⟩, ⟨"P2", "Y"⟩], []⟩

/-! ### Helper lemmas -/

/-- `runSteps` runs the prefix of passing steps and stops at the first
failing one. -/
theorem runSteps_eq (t : TablesPresent) (l : List StepId) :
    runSteps t l = (l.takeWhile (stepOk t), (l.dropWhile (stepOk t)).head?) := by
  induction l with
  | nil => rfl
  | cons s rest ih =>
    by_cases h : stepOk t s = true
    · simp [runSteps, List.takeWhile_cons, List.dropWhile_cons, h, ih]
    · simp [runSteps, List.takeWhile_cons, List.dropWhile_cons, h]

/-- Each step reads the database and leaves it unchanged. -/
theorem execStep_snd (s : StepId) (db : DB) : (execStep s db).2 = db := by
  cases s <;> rfl

/-- Deduplication does not change membership. -/
theorem mem_dedupFirst [DecidableEq α] {a : α} :
    ∀ {l : List α}, a ∈ dedupFirst l ↔ a ∈ l
  | [] => Iff.rfl
  | b :: t => by
    simp only [dedupFirst, List.mem_cons, List.mem_filter,
      mem_dedupFirst (l := t), decide_eq_true_eq]
    by_cases h : a = b
    · simp [h]
    · simp [h]

/-- Stability of the `ORDER BY ... DESC` sort: the rows holding any one
sort-key value keep their relative input order. -/
theorem insertionSort_filter_key_desc {κ : Type} [LinearOrder κ] (k : α → κ)
    (l : List α) (q : κ) :
    (List.insertionSort (byKey fun a => OrderDual.toDual (k a)) l).filter
        (fun a => decide (k a = q)) =
      l.filter fun a => decide (k a = q) := by
  set r := byKey fun a => OrderDual.toDual (k a) with hr
  set p : α → Bool := fun a => decide (k a = q) with hp
  have hperm : (List.insertionSort r l).Perm l := List.perm_insertionSort r l
  have hpw : (l.filter p).Pairwise r := by
    apply List.pairwise_of_forall_mem_list
    intro a ha b hb
    have ha' : k a = q := of_decide_eq_true (List.mem_filter.mp ha).2
    have hb' : k b = q := of_decide_eq_true (List.mem_filter.mp hb).2
    show OrderDual.toDual (k a) ≤ OrderDual.toDual (k b)
    rw [ha', hb']
  have hsub : List.Sublist (l.filter p) (List.insertionSort r l) :=
    List.sublist_insertionSort hpw (List.filter_sublist l)
  have hsub2 : List.Sublist (l.filter p) ((List.insertionSort r l).filter p) := by
    have h2 := hsub.filter p
    rwa [List.filter_filter, show (fun a => (p a && p a)) = p by
      funext a; exact Bool.and_self (p a)] at h2
  have hlen : ((List.insertionSort r l).filter p).length = (l.filter p).length :=
    (hperm.filter p).length_eq
  exact (hsub2.eq_of_length hlen.symm).symm

/-! ### The claims -/

/-- Claim C1 (corrected), counterexample: with no `data.sqlite` present,
`sqlite3.connect` succeeds (creating an empty database), step 1 raises
because the `employees`/`offices` tables are absent, and the script
terminates without ever reaching `conn.close()`. -/
theorem conn_leaked_on_failure :
    (script FileState.missing).connOpened = true ∧
    (script FileState.missing).failedStep = some StepId.s1 ∧
    (script FileState.missing).connClosed = false := by
  decide

/-- Claim C1 (amended): the connection is closed exactly on the fully
successful path; whenever any of the ten steps raises after the
connection was opened, the uncaught exception terminates the script
before `conn.close()` is executed. -/
theorem conn_closed_iff_all_steps_succeed (f : FileState) :
    (script f).connClosed = true ↔
      (script f).connOpened = true ∧ (script f).failedStep = none := by
  cases f with
  | missing => decide
  | unreadable => simp [script, connect]
  | present t => simp [script, connect, Option.isNone_iff_eq_none]

/-- Claim C2 (corrected), counterexample: when only the `payments` table
is missing, step 5 fails and steps 6..10 are never executed, so one
step's failure does prevent the remaining steps from running. -/
theorem failure_stops_later_steps :
    (script (FileState.present tablesNoPayments)).failedStep = some StepId.s5 ∧
    StepId.s6 ∉ (script (FileState.present tablesNoPayments)).completedSteps := by
  decide

/-- Claim C2 (amended): the script has no per-step error handling; the
steps before the first failing step complete, and the first failure
aborts the run so that no later step is executed. -/
theorem steps_run_until_first_failure (t : TablesPresent) :
    (script (FileState.present t)).completedSteps = allSteps.takeWhile (stepOk t) ∧
    (script (FileState.present t)).failedStep =
      (allSteps.dropWhile (stepOk t)).head? := by
  simp [script, connect, runSteps_eq]

/-- Claim C3 (corrected), counterexample: for a missing database file,
`sqlite3.connect` does not raise at all — it silently creates a fresh
empty database and returns a usable connection. -/
theorem connect_missing_creates_empty_db :
    connect FileState.missing = ConnectResult.opened emptyTables true ∧
    connect FileState.missing ≠ ConnectResult.operationalError := by
  decide

/-- Claim C3 (amended): opening fails (with `sqlite3.OperationalError`,
not `ConnectionError`) exactly when the path is unreadable; a missing
file is created as an empty database and the open succeeds. -/
theorem connect_fails_iff_unreadable (f : FileState) :
    connect f = ConnectResult.operationalError ↔ f = FileState.unreadable := by
  cases f <;> simp [connect]

/-- Claim C10: the database path is the fixed literal `data.sqlite`; the
run ignores its command line and environment entirely, and is determined
by the file-system entry at that one path. -/
theorem db_path_fixed (args args' : List String) (env env' : String → Option String)
    (fs : String → FileState) :
    dbPath = "data.sqlite" ∧
    main_run args env fs = script (fs dbPath) ∧
    main_run args env fs = main_run args' env' fs :=
  ⟨rfl, rfl, rfl⟩

/-- Claim C9: every step leaves the database unchanged (pure `SELECT`s),
and consequently the steps commute: in whatever order the steps are
executed, each produces exactly the table it produces on the initial
database, i.e. the same result as in source order. -/
theorem steps_readonly_and_commute (db : DB) (order : List StepId) :
    (∀ s : StepId, (execStep s db).2 = db) ∧
    runSeq order db = (order.map fun s => (s, (execStep s db).1), db) := by
  refine ⟨fun s => execStep_snd s db, ?_⟩
  induction order with
  | nil => rfl
  | cons s rest ih => simp [runSeq, execStep_snd, ih]

/-- Claim C5: the low-demand product set of step 10 never contains a
product bought by 20 or more distinct customers, and step 10 is
deterministic — identical fixture data yields an identical row list. -/
theorem low_demand_bounded_and_deterministic (db : DB) :
    (∀ pc ∈ low_demand_products db, distinctCustomerCount db pc < 20) ∧
    df_under_20 db = df_under_20 db := by
  refine ⟨fun pc hpc => ?_, rfl⟩
  exact of_decide_eq_true (List.mem_filter.mp hpc).2

/-- Concrete instance of the step-10 claim: in `dbC5` the product `P1`
is low-demand and indeed has fewer than 20 distinct buyers. -/
theorem low_demand_bounded_witness :
    "P1" ∈ low_demand_products dbC5 ∧ distinctCustomerCount dbC5 "P1" < 20 :=
  ⟨by decide, (low_demand_bounded_and_deterministic dbC5).1 "P1" (by decide)⟩

/-- The left join plus `IS NULL` filter of step 2 computes exactly the
matchless offices, projected to the selected columns. -/
theorem df_zero_emp_eq (db : DB) :
    df_zero_emp db =
      (db.offices.filter fun o =>
        !(db.employees.any fun e => o.officeCode == e.officeCode)).map
        fun o => ⟨o.officeCode, o.city, o.state, o.country⟩ := by
  unfold df_zero_emp leftJoin
  induction db.offices with
  | nil => rfl
  | cons o t ih =>
    simp only [List.flatMap_cons, List.filter_append, List.map_append, List.filter_cons]
    cases h : db.employees.filter (fun e => o.officeCode == e.officeCode) with
    | nil =>
      have hany : (db.employees.any fun e => o.officeCode == e.officeCode) = false :=
        List.any_eq_false.mpr (List.filter_eq_nil_iff.mp h)
      simp [h, hany, ih]
    | cons m ms =>
      have hm : m ∈ db.employees.filter (fun e => o.officeCode == e.officeCode) := by
        rw [h]; exact List.mem_cons_self m ms
      have hany : (db.employees.any fun e => o.officeCode == e.officeCode) = true := by
        rw [List.any_eq_true]
        exact ⟨m, (List.mem_filter.mp hm).1, (List.mem_filter.mp hm).2⟩
      have hblock : (((m :: ms).map fun e => ((o, some e) : Office × Option Employee)).filter
          (fun r => r.2.isNone)) = [] := by
        apply List.filter_eq_nil_iff.mpr
        intro r hr
        simp only [List.mem_map] at hr
        obtain ⟨e, _, rfl⟩ := hr
        simp
      simp [h, hany, hblock, ih]

/-- Claim C7: step 2's output is exactly the offices with zero
employees — every output row is an office that no employee references,
and every fixture office absent from the output is referenced by at
least one employee. -/
theorem zero_emp_exact (db : DB) :
    (∀ r ∈ df_zero_emp db,
      (∃ o ∈ db.offices, r = ⟨o.officeCode, o.city, o.state, o.country⟩) ∧
      ∀ e ∈ db.employees, e.officeCode ≠ r.officeCode) ∧
    ∀ o ∈ db.offices,
      (⟨o.officeCode, o.city, o.state, o.country⟩ : OfficeRow) ∉ df_zero_emp db →
        ∃ e ∈ db.employees, e.officeCode = o.officeCode := by
  rw [df_zero_emp_eq]
  constructor
  · intro r hr
    obtain ⟨o, ho, rfl⟩ := List.mem_map.mp hr
    have hfo := List.mem_filter.mp ho
    refine ⟨⟨o, hfo.1, rfl⟩, ?_⟩
    intro e he hEq
    have hany := hfo.2
    rw [Bool.not_eq_true', List.any_eq_false] at hany
    exact hany e he (by rw [beq_iff_eq]; exact hEq.symm)
  · intro o ho hnot
    by_cases hany : (db.employees.any fun e => o.officeCode == e.officeCode) = true
    · rw [List.any_eq_true] at hany
      obtain ⟨e, he, hbeq⟩ := hany
      exact ⟨e, he, (beq_iff_eq.mp hbeq).symm⟩
    · exact absurd (List.mem_map.mpr ⟨o, List.mem_filter.mpr
        ⟨ho, by rw [Bool.not_eq_true] at hany; rw [hany]; rfl⟩, rfl⟩) hnot

/-- Concrete instance of the step-2 claim on `dbC7`: office 1 appears in
the output and no employee references it; office 2 is absent from the
output and has an employee. -/
theorem zero_emp_witness :
    ((⟨"1", "Boston", "MA", "USA"⟩ : OfficeRow) ∈ df_zero_emp dbC7 ∧
      ∀ e ∈ dbC7.employees, e.officeCode ≠ "1") ∧
    ((⟨"2", "NYC", "NY", "USA"⟩ : OfficeRow) ∉ df_zero_emp dbC7 ∧
      ∃ e ∈ dbC7.employees, e.officeCode = "2") := by
  refine ⟨⟨by decide, ?_⟩, ⟨by decide, ?_⟩⟩
  · intro e he
    exact ((zero_emp_exact dbC7).1 ⟨"1", "Boston", "MA", "USA"⟩ (by decide)).2 e he
  · exact (zero_emp_exact dbC7).2 ⟨"2", "NYC", "NY", "USA"⟩ (by decide) (by decide)

/-- Claim C4: step 6 returns at most 4 rows; each returned row reports
its group's true customer count and a group whose average credit limit
is strictly above 90000 (stated by cross-multiplication, the groups
being nonempty); rows are sorted by customer count descending; and on a
fixture of 6 employees of which exactly 3 qualify the result is exactly
those 3 aggregate rows. -/
theorem credit_top4 (db : DB) :
    (df_credit db).length ≤ 4 ∧
    (∀ r ∈ df_credit db,
      r.num_customers =
        (creditGroupRows db (r.employeeNumber, r.firstName, r.lastName)).length ∧
      90000 * ((creditGroupRows db (r.employeeNumber, r.firstName, r.lastName)).length : Int) <
        ((creditGroupRows db (r.employeeNumber, r.firstName, r.lastName)).map
          fun x => x.2.creditLimit).sum) ∧
    List.Pairwise (fun r1 r2 : CreditRow => r2.num_customers ≤ r1.num_customers)
      (df_credit db) ∧
    (db.employees.length = 6 → (creditQualRows db).length = 3 →
      (df_credit db).Perm (creditQualRows db)) := by
  refine ⟨List.length_take_le 4 _, ?_, ?_, ?_⟩
  · intro r hr
    have hr1 := List.mem_of_mem_take hr
    have hr2 : r ∈ creditQualRows db := (List.perm_insertionSort _ _).mem_iff.mp hr1
    obtain ⟨k, hk, rfl⟩ := List.mem_map.mp hr2
    have hq : avgCreditOver90000 db k = true := (List.mem_filter.mp hk).2
    exact ⟨rfl, of_decide_eq_true hq⟩
  · have hs := List.sorted_insertionSort
      (byKey fun r : CreditRow => OrderDual.toDual r.num_customers) (creditQualRows db)
    have hp : List.Pairwise (fun r1 r2 : CreditRow => r2.num_customers ≤ r1.num_customers)
        (List.insertionSort (byKey fun r : CreditRow => OrderDual.toDual r.num_customers)
          (creditQualRows db)) :=
      hs.imp fun h => OrderDual.toDual_le_toDual.mp h
    exact hp.sublist (List.take_sublist 4 _)
  · intro _ h3
    have hlen : (List.insertionSort
        (byKey fun r : CreditRow => OrderDual.toDual r.num_customers)
        (creditQualRows db)).length ≤ 4 := by
      rw [List.length_insertionSort, h3]
      norm_num
    unfold df_credit
    rw [List.take_of_length_le hlen]
    exact List.perm_insertionSort _ _

/-- Concrete instance of the step-6 claim on `dbC4`: 6 employees, 3
qualifying, the output holds exactly the 3 qualifying aggregate rows,
and the row for employee 1 carries its true customer count. -/
theorem credit_top4_witness :
    (dbC4.employees.length = 6 ∧ (creditQualRows dbC4).length = 3) ∧
    (df_credit dbC4).length ≤ 4 ∧
    (⟨1, "F1", "L1", 1⟩ : CreditRow) ∈ df_credit dbC4 ∧
    (⟨1, "F1", "L1", 1⟩ : CreditRow).num_customers =
      (creditGroupRows dbC4 (1, "F1", "L1")).length ∧
    (df_credit dbC4).Perm (creditQualRows dbC4) := by
  refine ⟨⟨by decide, by decide⟩, (credit_top4 dbC4).1, by decide, ?_, ?_⟩
  · exact ((credit_top4 dbC4).2.1 ⟨1, "F1", "L1", 1⟩ (by decide)).1
  · exact (credit_top4 dbC4).2.2.2 (by decide) (by decide)

/-- Claim C6: step 5 returns the customer–payment join rows sorted by
the numeric cast of `amount` in descending order, and rows with equal
cast values keep their join (input/insertion) order: filtering the
output to any one key value yields exactly the input rows with that
value, in input order. -/
theorem payment_sorted_stable (db : DB) :
    (df_payment db).Perm (paymentRows db) ∧
    List.Pairwise (fun r1 r2 : PaymentRow => castReal r2.amount ≤ castReal r1.amount)
      (df_payment db) ∧
    ∀ q : Rat, (df_payment db).filter (fun r => decide (castReal r.amount = q)) =
      (paymentRows db).filter fun r => decide (castReal r.amount = q) := by
  refine ⟨List.perm_insertionSort _ _, ?_, ?_⟩
  · have hs := List.sorted_insertionSort
      (byKey fun r : PaymentRow => OrderDual.toDual (castReal r.amount)) (paymentRows db)
    exact hs.imp fun h => OrderDual.toDual_le_toDual.mp h
  · intro q
    exact insertionSort_filter_key_desc (fun r : PaymentRow => castReal r.amount)
      (paymentRows db) q

/-- Filtering the product–detail join to one product's name, when no two
products of the fixture share a name, keeps exactly that product's own
detail rows. -/
theorem filter_name_flatMap (ds : List OrderDetail) (p : Product) :
    ∀ l : List Product, (l.Pairwise fun a b => a.productName ≠ b.productName) → p ∈ l →
      ((l.flatMap fun a => (ds.filter fun b => a.productCode == b.productCode).map
          fun b => (a, b)).filter fun r => r.1.productName == p.productName) =
        (ds.filter fun od => p.productCode == od.productCode).map fun od => (p, od)
  | [], _, hp => absurd hp (List.not_mem_nil p)
  | a :: t, hpw, hp => by
    rw [List.pairwise_cons] at hpw
    rw [List.flatMap_cons, List.filter_append]
    rcases List.mem_cons.mp hp with rfl | hpt
    · have hhead : ((ds.filter fun b => p.productCode == b.productCode).map
          fun b => (p, b)).filter (fun r => r.1.productName == p.productName) =
          (ds.filter fun b => p.productCode == b.productCode).map fun b => (p, b) := by
        apply List.filter_eq_self.mpr
        intro r hr
        obtain ⟨od, _, rfl⟩ := List.mem_map.mp hr
        exact beq_self_eq_true _
      have htail : ((t.flatMap fun a => (ds.filter fun b => a.productCode == b.productCode).map
          fun b => (a, b)).filter fun r => r.1.productName == p.productName) = [] := by
        apply List.filter_eq_nil_iff.mpr
        intro r hr
        obtain ⟨q, hq, hrq⟩ := List.mem_flatMap.mp hr
        obtain ⟨od, _, rfl⟩ := List.mem_map.mp hrq
        intro hbeq
        exact hpw.1 q hq (beq_iff_eq.mp hbeq).symm
      rw [hhead, htail, List.append_nil]
    · have hhead : ((ds.filter fun b => a.productCode == b.productCode).map
          fun b => (a, b)).filter (fun r => r.1.productName == p.productName) = [] := by
        apply List.filter_eq_nil_iff.mpr
        intro r hr
        obtain ⟨od, _, rfl⟩ := List.mem_map.mp hr
        intro hbeq
        exact hpw.1 p hpt (beq_iff_eq.mp hbeq)
      rw [hhead, List.nil_append]
      exact filter_name_flatMap ds p t hpw.2 hpt

/-- Specialization of `filter_name_flatMap` to step 7's join. -/
theorem prodDetail_filter_name (db : DB)
    (hnames : db.products.Pairwise fun a b => a.productName ≠ b.productName)
    (p : Product) (hp : p ∈ db.products) :
    (prodDetailRows db).filter (fun r => r.1.productName == p.productName) =
      (db.orderdetails.filter fun od => p.productCode == od.productCode).map
        fun od => (p, od) :=
  filter_name_flatMap db.orderdetails p db.products hnames hp

/-- Claim C8 (corrected), counterexample: in `dbC8` two distinct
products share the name "X"; step 7 groups by `productName`, so their
detail rows merge into one row with `numorders = 2`, and no output row
carries product P1's own count of 1 — the per-product reading of the
claim fails. -/
theorem product_sold_merges_same_names :
    ¬ (step7PerProduct dbC8 ∧
      List.Pairwise (fun r1 r2 : ProductSoldRow => r2.totalunits ≤ r1.totalunits)
        (df_product_sold dbC8)) := by
  unfold step7PerProduct step7RowFor
  decide

/-- Claim C8 (amended): step 7's output is ordered by `totalunits`
descending for every fixture; the aggregation, however, is per product
*name*, so only when the fixture's product names are pairwise distinct —
the name group then coinciding with the product — does every product
appearing in an order detail get an output row with its own detail-row
count and quantity sum. -/
theorem product_sold_groups_by_name (db : DB) :
    List.Pairwise (fun r1 r2 : ProductSoldRow => r2.totalunits ≤ r1.totalunits)
      (df_product_sold db) ∧
    ((db.products.Pairwise fun a b => a.productName ≠ b.productName) →
      step7PerProduct db) := by
  constructor
  · have hs := List.sorted_insertionSort
      (byKey fun r : ProductSoldRow => OrderDual.toDual r.totalunits)
      ((dedupFirst ((prodDetailRows db).map fun r => r.1.productName)).map (prodSoldAgg db))
    exact hs.imp fun h => OrderDual.toDual_le_toDual.mp h
  · intro hnames p hp hex
    obtain ⟨od, hod, hoc⟩ := hex
    have hmemJoin : (p, od) ∈ prodDetailRows db := by
      unfold prodDetailRows innerJoin
      exact List.mem_flatMap.mpr ⟨p, hp, List.mem_map.mpr
        ⟨od, List.mem_filter.mpr ⟨hod, beq_iff_eq.mpr hoc.symm⟩, rfl⟩⟩
    have hname : p.productName ∈
        dedupFirst ((prodDetailRows db).map fun r => r.1.productName) :=
      mem_dedupFirst.mpr (List.mem_map.mpr ⟨(p, od), hmemJoin, rfl⟩)
    refine ⟨prodSoldAgg db p.productName, ?_, rfl, ?_, ?_⟩
    · exact (List.perm_insertionSort _ _).mem_iff.mpr
        (List.mem_map.mpr ⟨p.productName, hname, rfl⟩)
    · show ((prodDetailRows db).filter fun r => r.1.productName == p.productName).length = _
      rw [prodDetail_filter_name db hnames p hp, List.length_map]
    · show (((prodDetailRows db).filter fun r => r.1.productName == p.productName).map
          fun r => r.2.quantityOrdered).sum = _
      rw [prodDetail_filter_name db hnames p hp, List.map_map]
      rfl

/-- Concrete instance of the amended step-7 claim on `dbC8W`, whose two
product names are distinct. -/
theorem product_sold_groups_witness :
    (dbC8W.products.Pairwise fun a b => a.productName ≠ b.productName) ∧
    List.Pairwise (fun r1 r2 : ProductSoldRow => r2.totalunits ≤ r1.totalunits)
      (df_product_sold dbC8W) ∧
    step7PerProduct dbC8W :=
  ⟨by decide, (product_sold_groups_by_name dbC8W).1,
    (product_sold_groups_by_name dbC8W).2 (by decide)⟩

end RelLab
